import Mathlib

/-!
# Verification of `HelloOpenCL/main.c`

A shallow embedding of `src/HelloOpenCL/main.c` in Lean 4.

The program talks to two external collaborators: the OpenCL runtime and the
CoreFoundation bundle-resource lookup.  We model their answers with an
environment record `Env`: one field per external call, holding the error code
(or the looked-up value) that the call returns in a given run.  The program
itself is embedded as a function `main : Env → MainResult` that mirrors the C
control flow statement by statement and records every externally visible
action (every `printf` line and every OpenCL API / release call) in an event
trace, together with the process exit code.

`cl_float` values are modelled as exact rationals (`ℚ`): every finite IEEE-754
binary32 value is a rational number, the inputs `(float)i` for `i < 1024` and
their squares are exactly representable, and the C comparison `!=` on such
values coincides with rational disequality (NaN, which has no rational
counterpart, is outside the model).  `cl_int` error codes are modelled as `ℤ`;
`CL_SUCCESS` is `0`, and the C bitwise `|` used at `err |= clSetKernelArg(...)`
is `Int.lor`, whose two's-complement semantics agrees with the 32-bit one on
the question that matters here (whether the combined code is zero).
-/

set_option autoImplicit false

namespace HelloOpenCL

/-- `#define NUM_VALUES 1024` (main.c line 15). -/
def NUM_VALUES : Nat := 1024

/-- Which device type a `clGetDeviceIDs` probe asks for
(`CL_DEVICE_TYPE_GPU` / `CL_DEVICE_TYPE_CPU`). -/
inductive DevType : Type
  | gpu
  | cpu
deriving DecidableEq, Repr

/-- Which of the two `clCreateBuffer` calls an event refers to
(`mem_in` at line 158, `mem_out` at line 165). -/
inductive BufKind : Type
  | bufIn
  | bufOut
deriving DecidableEq, Repr

/-- Externally visible actions of the program, in the order they happen:
`printf`/`fprintf` output, OpenCL API calls, release calls and host `free`s.
The two `fprintf` lines inside `validate` (main.c lines 44 and 45) are kept
structured so that the reported index and values are visible:
`printElementError i` is the line `"Error: Element %d did not match expected
output.\n"` and `printSawExpected saw expected` is the line
`"Saw %1.4f, expected %1.4f\n"`. -/
inductive Event : Type
  | print (s : String)
  | printElementError (i : Nat)
  | printSawExpected (saw expected : ℚ)
  | callGetPlatformIDs
  | callGetDeviceIDs (t : DevType)
  | callGetDeviceInfo
  | callCreateContext
  | callCreateCommandQueue
  | callGetBundleResourcePath (filename : String)
  | callCreateProgramWithSource (src : String)
  | callBuildProgram
  | callGetProgramBuildInfo
  | callCreateKernel (kname : String)
  | callCreateBuffer (k : BufKind)
  | callSetKernelArg (idx : Nat)
  | callEnqueueNDRangeKernel (globalSize : Nat)
  | callEnqueueReadBuffer
  | releaseMemIn
  | releaseMemOut
  | releaseKernel
  | releaseProgram
  | releaseQueue
  | releaseContext
  | freeHost (which : String)
deriving DecidableEq, Repr

/-- `true` exactly on the six `clRelease*` events. -/
def Event.isRelease : Event → Bool
  | .releaseMemIn => true
  | .releaseMemOut => true
  | .releaseKernel => true
  | .releaseProgram => true
  | .releaseQueue => true
  | .releaseContext => true
  | _ => false

/-- `true` exactly on the stdout-printing events. -/
def Event.isPrint : Event → Bool
  | .print _ => true
  | .printElementError _ => true
  | .printSawExpected _ _ => true
  | _ => false

/-- `true` exactly on the API calls of the setup phase (main.c lines 62-147):
platform/device probes, context, queue, resource lookup, program creation,
build, build-info and kernel creation.  None of these calls occurs in the
buffer phase of the program (main.c lines 149-219). -/
def Event.isSetupCall : Event → Bool
  | .callGetPlatformIDs => true
  | .callGetDeviceIDs _ => true
  | .callGetDeviceInfo => true
  | .callCreateContext => true
  | .callCreateCommandQueue => true
  | .callGetBundleResourcePath _ => true
  | .callCreateProgramWithSource _ => true
  | .callBuildProgram => true
  | .callGetProgramBuildInfo => true
  | .callCreateKernel _ => true
  | _ => false

/-- The answers of the external world (OpenCL runtime, bundle lookup) for one
run: one field per external call site of `main.c`, in program order.  An `Int`
field is the `cl_int` error code the call reports (`0` = `CL_SUCCESS`);
`resourcePath` is the result of `getBundleResourcePath "kernel.cl"` (`none`
models a `NULL` return); `readback` holds the values that the successful
`clEnqueueReadBuffer` deposits in `test_out`. -/
structure Env : Type where
  platformErr : Int
  gpuErr : Int
  cpuErr : Int
  deviceName : String
  contextErr : Int
  queueErr : Int
  resourcePath : Option String
  createProgramErr : Int
  buildErr : Int
  buildLog : String
  createKernelErr : Int
  bufInErr : Int
  bufOutErr : Int
  setArg0Err : Int
  setArg1Err : Int
  enqueueErr : Int
  readErr : Int
  readback : Nat → ℚ

/-- Result of `validate` (main.c lines 41-51): the two arrays as they are when
the function returns (the embedding threads them through every step, so that
the absence of stores in the C body becomes provable), the events it printed,
and its `int` return value (`true` = `1`, `false` = `0`). -/
structure VState : Type where
  input : Nat → ℚ
  output : Nat → ℚ
  events : List Event
  ret : Bool

/-- The loop of `validate` (main.c lines 42-49), with the remaining iteration
count as structural fuel: at index `i` with `n` iterations left, compare
`output[i]` with `input[i] * input[i]`; on mismatch print the two diagnostic
lines and return `0`, otherwise continue; after the last iteration return
`1`. -/
def validateAux (input output : Nat → ℚ) (i : Nat) : Nat → VState
  | 0 => ⟨input, output, [], true⟩
  | n + 1 =>
    if output i ≠ input i * input i then
      ⟨input, output,
        [.printElementError i, .printSawExpected (output i) (input i * input i)],
        false⟩
    else
      validateAux input output (i + 1) n

/-- `static int validate(cl_float* input, cl_float* output)`
(main.c lines 41-51). -/
def validate (input output : Nat → ℚ) : VState :=
  validateAux input output 0 NUM_VALUES

/-- The contents of `test_in` after the fill loop at main.c lines 153-155:
`test_in[i] = (float)i`. -/
def test_in : Nat → ℚ := fun i => (i : ℚ)

/-- `"Error getting platform: %d\n"` (main.c line 65). -/
def diagPlatform (e : Int) : String :=
  "Error getting platform: " ++ toString e ++ "\n"

/-- `"Error creating context: %d\n"` (main.c line 88). -/
def diagContext (e : Int) : String :=
  "Error creating context: " ++ toString e ++ "\n"

/-- `"Error creating command queue: %d\n"` (main.c line 95). -/
def diagQueue (e : Int) : String :=
  "Error creating command queue: " ++ toString e ++ "\n"

/-- `"Error creating program: %d\n"` (main.c line 114). -/
def diagProgram (e : Int) : String :=
  "Error creating program: " ++ toString e ++ "\n"

/-- `"Error building program: %d\n"` (main.c line 123). -/
def diagBuild (e : Int) : String :=
  "Error building program: " ++ toString e ++ "\n"

/-- `"Error creating kernel: %d\n"` (main.c line 142). -/
def diagKernel (e : Int) : String :=
  "Error creating kernel: " ++ toString e ++ "\n"

/-- `"Error creating input buffer: %d\n"` (main.c line 161). -/
def diagBufIn (e : Int) : String :=
  "Error creating input buffer: " ++ toString e ++ "\n"

/-- `"Error creating output buffer: %d\n"` (main.c line 168). -/
def diagBufOut (e : Int) : String :=
  "Error creating output buffer: " ++ toString e ++ "\n"

/-- `"Error setting kernel arguments: %d\n"` (main.c line 177). -/
def diagArgs (e : Int) : String :=
  "Error setting kernel arguments: " ++ toString e ++ "\n"

/-- `"Error executing kernel: %d\n"` (main.c line 187). -/
def diagExec (e : Int) : String :=
  "Error executing kernel: " ++ toString e ++ "\n"

/-- `"Error reading results: %d\n"` (main.c line 196). -/
def diagRead (e : Int) : String :=
  "Error reading results: " ++ toString e ++ "\n"

/-- Exit code and event trace of one run of `main`. -/
structure MainResult : Type where
  exitCode : Nat
  events : List Event

/-- The events of the `cleanup:` label (main.c lines 211-217):
`free(test_in); free(test_out);` then release kernel, program, queue and
context. -/
def cleanupEvents : List Event :=
  [.freeHost "test_in", .freeHost "test_out",
   .releaseKernel, .releaseProgram, .releaseQueue, .releaseContext]

/-- main.c lines 149-219: from the creation of the test data and the OpenCL
buffers to the end of `main`.  Every error branch here ends in `goto cleanup`,
and the function falls off through the `cleanup:` label with `return 0`. -/
def buffersStage (env : Env) : MainResult :=
  if env.bufInErr ≠ 0 then
    ⟨0, [.callCreateBuffer .bufIn, .print (diagBufIn env.bufInErr)] ++ cleanupEvents⟩
  else if env.bufOutErr ≠ 0 then
    ⟨0, [.callCreateBuffer .bufIn, .callCreateBuffer .bufOut,
         .print (diagBufOut env.bufOutErr), .releaseMemIn] ++ cleanupEvents⟩
  else if Int.lor env.setArg0Err env.setArg1Err ≠ 0 then
    ⟨0, [.callCreateBuffer .bufIn, .callCreateBuffer .bufOut,
         .callSetKernelArg 0, .callSetKernelArg 1,
         .print (diagArgs (Int.lor env.setArg0Err env.setArg1Err)),
         .releaseMemIn, .releaseMemOut] ++ cleanupEvents⟩
  else if env.enqueueErr ≠ 0 then
    ⟨0, [.callCreateBuffer .bufIn, .callCreateBuffer .bufOut,
         .callSetKernelArg 0, .callSetKernelArg 1,
         .callEnqueueNDRangeKernel NUM_VALUES,
         .print (diagExec env.enqueueErr),
         .releaseMemIn, .releaseMemOut] ++ cleanupEvents⟩
  else if env.readErr ≠ 0 then
    ⟨0, [.callCreateBuffer .bufIn, .callCreateBuffer .bufOut,
         .callSetKernelArg 0, .callSetKernelArg 1,
         .callEnqueueNDRangeKernel NUM_VALUES, .callEnqueueReadBuffer,
         .print (diagRead env.readErr),
         .releaseMemIn, .releaseMemOut] ++ cleanupEvents⟩
  else
    let v := validate test_in env.readback
    ⟨0, [.callCreateBuffer .bufIn, .callCreateBuffer .bufOut,
         .callSetKernelArg 0, .callSetKernelArg 1,
         .callEnqueueNDRangeKernel NUM_VALUES, .callEnqueueReadBuffer]
        ++ v.events
        ++ (if v.ret then [Event.print "All values were properly squared!\n"] else [])
        ++ [.releaseMemIn, .releaseMemOut] ++ cleanupEvents⟩

/-- The events of the platform and device probes (main.c lines 62-78): the
GPU probe always runs; the CPU probe (and its notice line) only after a GPU
failure. -/
def devTrace (env : Env) : List Event :=
  if env.gpuErr ≠ 0 then
    [.callGetPlatformIDs, .callGetDeviceIDs .gpu,
     .print "No GPU found, trying CPU...\n", .callGetDeviceIDs .cpu]
  else
    [.callGetPlatformIDs, .callGetDeviceIDs .gpu]

/-- `int main(int argc, const char* argv[])` (main.c lines 53-220), as a
function of the external world's answers.  Each branch matches the C control
flow: an early `return 1` after a diagnostic (and the releases that the branch
performs) for the failures up to kernel creation, then `buffersStage` for the
rest. -/
def main (env : Env) : MainResult :=
  if env.platformErr ≠ 0 then
    ⟨1, [.callGetPlatformIDs, .print (diagPlatform env.platformErr)]⟩
  else
    if env.gpuErr ≠ 0 ∧ env.cpuErr ≠ 0 then
      ⟨1, devTrace env ++ [.print "No OpenCL devices found\n"]⟩
    else
      let t1 := devTrace env ++
        [.callGetDeviceInfo, .print ("Using device: " ++ env.deviceName ++ "\n"),
         .callCreateContext]
      if env.contextErr ≠ 0 then
        ⟨1, t1 ++ [.print (diagContext env.contextErr)]⟩
      else
        let t2 := t1 ++ [.callCreateCommandQueue]
        if env.queueErr ≠ 0 then
          ⟨1, t2 ++ [.print (diagQueue env.queueErr), .releaseContext]⟩
        else
          let t3 := t2 ++ [.callGetBundleResourcePath "kernel.cl"]
          match env.resourcePath with
          | none =>
            ⟨1, t3 ++ [.print "Could not find kernel.cl in bundle\n",
                       .releaseQueue, .releaseContext]⟩
          | some path =>
            let t4 := t3 ++ [.callCreateProgramWithSource path]
            if env.createProgramErr ≠ 0 then
              ⟨1, t4 ++ [.print (diagProgram env.createProgramErr),
                         .releaseQueue, .releaseContext]⟩
            else
              let t5 := t4 ++ [.callBuildProgram]
              if env.buildErr ≠ 0 then
                ⟨1, t5 ++ [.print (diagBuild env.buildErr),
                           .callGetProgramBuildInfo, .callGetProgramBuildInfo,
                           .print ("Build log:\n" ++ env.buildLog ++ "\n"),
                           .releaseProgram, .releaseQueue, .releaseContext]⟩
              else
                let t6 := t5 ++ [.callCreateKernel "square"]
                if env.createKernelErr ≠ 0 then
                  ⟨1, t6 ++ [.print (diagKernel env.createKernelErr),
                             .releaseProgram, .releaseQueue, .releaseContext]⟩
                else
                  let b := buffersStage env
                  ⟨b.exitCode, t6 ++ b.events⟩

/-- The infrastructure steps of `main` that can fail, in program order. -/
inductive Step : Type
  | platform
  | device
  | context
  | queue
  | resource
  | createProgram
  | build
  | createKernel
  | bufIn
  | bufOut
  | setArgs
  | enqueue
  | readBuf
deriving DecidableEq, Repr

/-- The first step of `main` that fails in the run described by `env`
(`none` when the run reaches validation), following the program's own order
of checks. -/
def firstFailure (env : Env) : Option Step :=
  if env.platformErr ≠ 0 then some .platform
  else if env.gpuErr ≠ 0 ∧ env.cpuErr ≠ 0 then some .device
  else if env.contextErr ≠ 0 then some .context
  else if env.queueErr ≠ 0 then some .queue
  else if env.resourcePath = none then some .resource
  else if env.createProgramErr ≠ 0 then some .createProgram
  else if env.buildErr ≠ 0 then some .build
  else if env.createKernelErr ≠ 0 then some .createKernel
  else if env.bufInErr ≠ 0 then some .bufIn
  else if env.bufOutErr ≠ 0 then some .bufOut
  else if Int.lor env.setArg0Err env.setArg1Err ≠ 0 then some .setArgs
  else if env.enqueueErr ≠ 0 then some .enqueue
  else if env.readErr ≠ 0 then some .readBuf
  else none

/-- The diagnostic line that `main` prints when a given step fails. -/
def stepDiag (env : Env) : Step → String
  | .platform => diagPlatform env.platformErr
  | .device => "No OpenCL devices found\n"
  | .context => diagContext env.contextErr
  | .queue => diagQueue env.queueErr
  | .resource => "Could not find kernel.cl in bundle\n"
  | .createProgram => diagProgram env.createProgramErr
  | .build => diagBuild env.buildErr
  | .createKernel => diagKernel env.createKernelErr
  | .bufIn => diagBufIn env.bufInErr
  | .bufOut => diagBufOut env.bufOutErr
  | .setArgs => diagArgs (Int.lor env.setArg0Err env.setArg1Err)
  | .enqueue => diagExec env.enqueueErr
  | .readBuf => diagRead env.readErr

/-- The exit status of `main` when a given step is the first to fail: the
failures up to kernel creation return `1` directly, while the later ones
reach the `cleanup:` label, which ends in `return 0`. -/
def stepExit : Step → Nat
  | .bufIn => 0
  | .bufOut => 0
  | .setArgs => 0
  | .enqueue => 0
  | .readBuf => 0
  | _ => 1

/-- `clCreateContext` succeeded in the run described by `env`. -/
def contextCreated (env : Env) : Bool :=
  env.platformErr == 0 && (env.gpuErr == 0 || env.cpuErr == 0) &&
    env.contextErr == 0

/-- `clCreateCommandQueue` succeeded. -/
def queueCreated (env : Env) : Bool :=
  contextCreated env && env.queueErr == 0

/-- `clCreateProgramWithSource` was reached and succeeded. -/
def programCreated (env : Env) : Bool :=
  queueCreated env && env.resourcePath.isSome && env.createProgramErr == 0

/-- `clCreateKernel` was reached and succeeded. -/
def kernelCreated (env : Env) : Bool :=
  programCreated env && env.buildErr == 0 && env.createKernelErr == 0

/-- The input buffer `mem_in` was created. -/
def memInCreated (env : Env) : Bool :=
  kernelCreated env && env.bufInErr == 0

/-- The output buffer `mem_out` was created. -/
def memOutCreated (env : Env) : Bool :=
  memInCreated env && env.bufOutErr == 0

/-! ## Helper lemmas -/

/-- A bitwise or of naturals is zero exactly when both operands are. -/
lemma nat_lor_eq_zero_iff (m n : Nat) : m ||| n = 0 ↔ m = 0 ∧ n = 0 := by
  constructor
  · intro h
    constructor
    · refine Nat.eq_of_testBit_eq fun i => ?_
      have h1 := congrArg (fun x => Nat.testBit x i) h
      simp only [Nat.testBit_lor, Nat.zero_testBit, Bool.or_eq_false_iff] at h1
      simp [h1.1]
    · refine Nat.eq_of_testBit_eq fun i => ?_
      have h1 := congrArg (fun x => Nat.testBit x i) h
      simp only [Nat.testBit_lor, Nat.zero_testBit, Bool.or_eq_false_iff] at h1
      simp [h1.2]
  · rintro ⟨rfl, rfl⟩
    rfl

/-- The two's-complement bitwise or of two `cl_int` error codes is
`CL_SUCCESS` (zero) exactly when both codes are. -/
lemma int_lor_eq_zero_iff (a b : Int) : Int.lor a b = 0 ↔ a = 0 ∧ b = 0 := by
  cases a with
  | ofNat m =>
    cases b with
    | ofNat n =>
      simp only [Int.lor, Int.ofNat_eq_coe, Int.natCast_eq_zero]
      exact_mod_cast nat_lor_eq_zero_iff m n
    | negSucc n =>
      simp [Int.lor]
  | negSucc m =>
    cases b with
    | ofNat n => simp [Int.lor]
    | negSucc n => simp [Int.lor]

/-- The `validate` loop never writes to either array: the embedding threads
both arrays through unchanged. -/
lemma validateAux_frame (input output : Nat → ℚ) :
    ∀ n i, (validateAux input output i n).input = input ∧
      (validateAux input output i n).output = output := by
  intro n
  induction n with
  | zero => intro i; exact ⟨rfl, rfl⟩
  | succ n ih =>
    intro i
    by_cases h : output i ≠ input i * input i
    · simp [validateAux, h]
    · simpa [validateAux, h] using ih (i + 1)

/-- The `validate` loop only prints: its event trace is either empty or the
two mismatch lines. -/
lemma validateAux_events_shape (input output : Nat → ℚ) :
    ∀ n i, (validateAux input output i n).events = [] ∨
      ∃ j a b, (validateAux input output i n).events =
        [.printElementError j, .printSawExpected a b] := by
  intro n
  induction n with
  | zero => intro i; exact Or.inl rfl
  | succ n ih =>
    intro i
    by_cases h : output i ≠ input i * input i
    · exact Or.inr ⟨i, output i, input i * input i, by simp [validateAux, h]⟩
    · simpa [validateAux, h] using ih (i + 1)

/-- The `validate` loop returns `1` exactly when all the remaining `n`
entries, starting at index `i`, match. -/
lemma validateAux_ret_iff (input output : Nat → ℚ) :
    ∀ n i, (validateAux input output i n).ret = true ↔
      ∀ k, k < n → output (i + k) = input (i + k) * input (i + k) := by
  intro n
  induction n with
  | zero => intro i; simp [validateAux]
  | succ n ih =>
    intro i
    by_cases h : output i ≠ input i * input i
    · simp only [validateAux, if_pos h]
      constructor
      · intro hfalse; exact absurd hfalse (by simp)
      · intro hall
        exact absurd (by simpa using hall 0 (Nat.succ_pos n)) h
    · push_neg at h
      simp only [validateAux, if_neg (not_not_intro h)]
      rw [ih (i + 1)]
      constructor
      · intro hall k hk
        cases k with
        | zero => simpa using h
        | succ k =>
          have hs := hall k (Nat.lt_of_succ_lt_succ hk)
          have e : i + (k + 1) = i + 1 + k := by omega
          rw [e]; exact hs
      · intro hall k hk
        have hs := hall (k + 1) (Nat.succ_lt_succ hk)
        have e : i + 1 + k = i + (k + 1) := by omega
        rw [e]; exact hs

/-- If, within the remaining `n` entries, the first mismatch is at offset `j`,
the `validate` loop stops there, prints the index and the two values, and
returns `0`. -/
lemma validateAux_first_mismatch (input output : Nat → ℚ) :
    ∀ n i j, j < n →
      (∀ k, k < j → output (i + k) = input (i + k) * input (i + k)) →
      output (i + j) ≠ input (i + j) * input (i + j) →
      validateAux input output i n =
        ⟨input, output,
          [.printElementError (i + j),
           .printSawExpected (output (i + j)) (input (i + j) * input (i + j))],
          false⟩ := by
  intro n
  induction n with
  | zero => intro i j hj; exact absurd hj (Nat.not_lt_zero j)
  | succ n ih =>
    intro i j hj hpre hmis
    cases j with
    | zero =>
      have h0 : output i ≠ input i * input i := by simpa using hmis
      simp [validateAux, h0]
    | succ j =>
      have h0 : output i = input i * input i := by simpa using hpre 0 (Nat.succ_pos j)
      rw [validateAux, if_neg (not_not_intro h0)]
      have hrec := ih (i + 1) j (Nat.lt_of_succ_lt_succ hj)
        (fun k hk => by
          have hs := hpre (k + 1) (Nat.succ_lt_succ hk)
          have e : i + 1 + k = i + (k + 1) := by omega
          rw [e]; exact hs)
        (by
          have e : i + 1 + j = i + (j + 1) := by omega
          rw [e]; exact hmis)
      rw [hrec]
      have e : i + 1 + j = i + (j + 1) := by omega
      rw [e]

/-! ### Run-shape lemmas: the full trace of `main` on each kind of run -/

lemma main_platform_fail {env : Env} (h : env.platformErr ≠ 0) :
    main env = ⟨1, [.callGetPlatformIDs, .print (diagPlatform env.platformErr)]⟩ := by
  simp [main, h]

lemma main_device_fail {env : Env} (h0 : env.platformErr = 0)
    (h1 : env.gpuErr ≠ 0) (h2 : env.cpuErr ≠ 0) :
    main env = ⟨1, [.callGetPlatformIDs, .callGetDeviceIDs .gpu,
      .print "No GPU found, trying CPU...\n", .callGetDeviceIDs .cpu,
      .print "No OpenCL devices found\n"]⟩ := by
  simp [main, devTrace, h0, h1, h2]

lemma main_context_fail {env : Env} (h0 : env.platformErr = 0)
    (hd : ¬(env.gpuErr ≠ 0 ∧ env.cpuErr ≠ 0)) (hc : env.contextErr ≠ 0) :
    main env = ⟨1, devTrace env ++
      [.callGetDeviceInfo, .print ("Using device: " ++ env.deviceName ++ "\n"),
       .callCreateContext, .print (diagContext env.contextErr)]⟩ := by
  simp [main, h0, hd, hc]

lemma main_queue_fail {env : Env} (h0 : env.platformErr = 0)
    (hd : ¬(env.gpuErr ≠ 0 ∧ env.cpuErr ≠ 0)) (hc : env.contextErr = 0)
    (hq : env.queueErr ≠ 0) :
    main env = ⟨1, devTrace env ++
      [.callGetDeviceInfo, .print ("Using device: " ++ env.deviceName ++ "\n"),
       .callCreateContext, .callCreateCommandQueue,
       .print (diagQueue env.queueErr), .releaseContext]⟩ := by
  simp [main, h0, hd, hc, hq]

lemma main_resource_fail {env : Env} (h0 : env.platformErr = 0)
    (hd : ¬(env.gpuErr ≠ 0 ∧ env.cpuErr ≠ 0)) (hc : env.contextErr = 0)
    (hq : env.queueErr = 0) (hr : env.resourcePath = none) :
    main env = ⟨1, devTrace env ++
      [.callGetDeviceInfo, .print ("Using device: " ++ env.deviceName ++ "\n"),
       .callCreateContext, .callCreateCommandQueue,
       .callGetBundleResourcePath "kernel.cl",
       .print "Could not find kernel.cl in bundle\n",
       .releaseQueue, .releaseContext]⟩ := by
  simp [main, h0, hd, hc, hq, hr]

lemma main_program_fail {env : Env} {path : String} (h0 : env.platformErr = 0)
    (hd : ¬(env.gpuErr ≠ 0 ∧ env.cpuErr ≠ 0)) (hc : env.contextErr = 0)
    (hq : env.queueErr = 0) (hr : env.resourcePath = some path)
    (hp : env.createProgramErr ≠ 0) :
    main env = ⟨1, devTrace env ++
      [.callGetDeviceInfo, .print ("Using device: " ++ env.deviceName ++ "\n"),
       .callCreateContext, .callCreateCommandQueue,
       .callGetBundleResourcePath "kernel.cl",
       .callCreateProgramWithSource path,
       .print (diagProgram env.createProgramErr),
       .releaseQueue, .releaseContext]⟩ := by
  simp [main, h0, hd, hc, hq, hr, hp]

lemma main_build_fail {env : Env} {path : String} (h0 : env.platformErr = 0)
    (hd : ¬(env.gpuErr ≠ 0 ∧ env.cpuErr ≠ 0)) (hc : env.contextErr = 0)
    (hq : env.queueErr = 0) (hr : env.resourcePath = some path)
    (hp : env.createProgramErr = 0) (hb : env.buildErr ≠ 0) :
    main env = ⟨1, devTrace env ++
      [.callGetDeviceInfo, .print ("Using device: " ++ env.deviceName ++ "\n"),
       .callCreateContext, .callCreateCommandQueue,
       .callGetBundleResourcePath "kernel.cl",
       .callCreateProgramWithSource path, .callBuildProgram,
       .print (diagBuild env.buildErr),
       .callGetProgramBuildInfo, .callGetProgramBuildInfo,
       .print ("Build log:\n" ++ env.buildLog ++ "\n"),
       .releaseProgram, .releaseQueue, .releaseContext]⟩ := by
  simp [main, h0, hd, hc, hq, hr, hp, hb]

lemma main_kernel_fail {env : Env} {path : String} (h0 : env.platformErr = 0)
    (hd : ¬(env.gpuErr ≠ 0 ∧ env.cpuErr ≠ 0)) (hc : env.contextErr = 0)
    (hq : env.queueErr = 0) (hr : env.resourcePath = some path)
    (hp : env.createProgramErr = 0) (hb : env.buildErr = 0)
    (hk : env.createKernelErr ≠ 0) :
    main env = ⟨1, devTrace env ++
      [.callGetDeviceInfo, .print ("Using device: " ++ env.deviceName ++ "\n"),
       .callCreateContext, .callCreateCommandQueue,
       .callGetBundleResourcePath "kernel.cl",
       .callCreateProgramWithSource path, .callBuildProgram,
       .callCreateKernel "square",
       .print (diagKernel env.createKernelErr),
       .releaseProgram, .releaseQueue, .releaseContext]⟩ := by
  simp [main, h0, hd, hc, hq, hr, hp, hb, hk]

lemma main_reaches_buffers {env : Env} {path : String} (h0 : env.platformErr = 0)
    (hd : ¬(env.gpuErr ≠ 0 ∧ env.cpuErr ≠ 0)) (hc : env.contextErr = 0)
    (hq : env.queueErr = 0) (hr : env.resourcePath = some path)
    (hp : env.createProgramErr = 0) (hb : env.buildErr = 0)
    (hk : env.createKernelErr = 0) :
    main env = ⟨(buffersStage env).exitCode, devTrace env ++
      ([.callGetDeviceInfo, .print ("Using device: " ++ env.deviceName ++ "\n"),
        .callCreateContext, .callCreateCommandQueue,
        .callGetBundleResourcePath "kernel.cl",
        .callCreateProgramWithSource path, .callBuildProgram,
        .callCreateKernel "square"] ++ (buffersStage env).events)⟩ := by
  simp [main, h0, hd, hc, hq, hr, hp, hb, hk]

/-! ### Facts about the buffer phase -/

lemma buffersStage_exitCode (env : Env) : (buffersStage env).exitCode = 0 := by
  unfold buffersStage
  split_ifs <;> rfl

lemma buffersStage_all_noSetup (env : Env) :
    (buffersStage env).events.all (fun e => !e.isSetupCall) = true := by
  rcases validateAux_events_shape test_in env.readback NUM_VALUES 0 with hv | ⟨j, a, b, hv⟩ <;>
    by_cases hret : (validate test_in env.readback).ret <;>
      · unfold buffersStage
        split_ifs <;>
          simp [cleanupEvents, validate, Event.isSetupCall, hv, hret]

lemma buffersStage_not_mem_setup (env : Env) {e : Event}
    (he : e.isSetupCall = true) : e ∉ (buffersStage env).events := by
  intro hmem
  have h2 := List.all_eq_true.mp (buffersStage_all_noSetup env) e hmem
  rw [he] at h2
  exact Bool.noConfusion h2

lemma firstFailure_none_elim (env : Env) (h : firstFailure env = none) :
    env.platformErr = 0 ∧ ¬(env.gpuErr ≠ 0 ∧ env.cpuErr ≠ 0) ∧
    env.contextErr = 0 ∧ env.queueErr = 0 ∧
    (∃ path, env.resourcePath = some path) ∧
    env.createProgramErr = 0 ∧ env.buildErr = 0 ∧ env.createKernelErr = 0 := by
  by_cases h1 : env.platformErr = 0
  case neg => exact absurd h (by simp [firstFailure, h1])
  by_cases h2 : env.gpuErr ≠ 0 ∧ env.cpuErr ≠ 0
  case pos => exact absurd h (by simp [firstFailure, h1, h2])
  by_cases h3 : env.contextErr = 0
  case neg => exact absurd h (by simp [firstFailure, h1, h2, h3])
  by_cases h4 : env.queueErr = 0
  case neg => exact absurd h (by simp [firstFailure, h1, h2, h3, h4])
  rcases hres : env.resourcePath with _ | path
  · exact absurd h (by simp [firstFailure, h1, h2, h3, h4, hres])
  by_cases h6 : env.createProgramErr = 0
  case neg => exact absurd h (by simp [firstFailure, h1, h2, h3, h4, hres, h6])
  by_cases h7 : env.buildErr = 0
  case neg => exact absurd h (by simp [firstFailure, h1, h2, h3, h4, hres, h6, h7])
  by_cases h8 : env.createKernelErr = 0
  case neg =>
    exact absurd h (by simp [firstFailure, h1, h2, h3, h4, hres, h6, h7, h8])
  exact ⟨h1, h2, h3, h4, ⟨path, rfl⟩, h6, h7, h8⟩

/-! ### Claim theorems -/


/-- C10: the validation step is read-only with respect to its data: for every
pair of input and output arrays, `validate` returns both arrays unchanged,
and every event it emits is a print; its only other effect is its boolean
return value. -/
theorem c10_validate_readonly (input output : Nat → ℚ) :
    (validate input output).input = input ∧
    (validate input output).output = output ∧
    (validate input output).events.all Event.isPrint = true := by
  refine ⟨(validateAux_frame input output NUM_VALUES 0).1,
    (validateAux_frame input output NUM_VALUES 0).2, ?_⟩
  rcases validateAux_events_shape input output NUM_VALUES 0 with hv | ⟨j, a, b, hv⟩ <;>
    simp [validate, hv, Event.isPrint]

/-- C3: with the input array holding `input[i] = i` (the contents of
`test_in`), `validate` reports success exactly when `output[i]` equals
`input[i] * input[i]` for every `i < 1024` under exact equality, and at the
first index where equality fails it prints that index together with the seen
and the expected value, and reports failure. -/
theorem c3_validation_iff (out : Nat → ℚ) :
    ((validate test_in out).ret = true ↔
      ∀ i, i < NUM_VALUES → out i = test_in i * test_in i) ∧
    (∀ j, j < NUM_VALUES → (∀ k, k < j → out k = test_in k * test_in k) →
      out j ≠ test_in j * test_in j →
      (validate test_in out).ret = false ∧
      (validate test_in out).events =
        [.printElementError j,
         .printSawExpected (out j) (test_in j * test_in j)]) := by
  constructor
  · have h := validateAux_ret_iff test_in out NUM_VALUES 0
    simpa [validate] using h
  · intro j hj hpre hmis
    have h := validateAux_first_mismatch test_in out NUM_VALUES 0 j hj
      (by simpa using hpre) (by simpa using hmis)
    rw [validate, h]
    simp

/-- Witness for C3: the constant array `5` mismatches `test_in` first at
index `0`, where `validate` prints index `0`, the seen value `5` and the
expected value `0`, and returns failure. -/
theorem c3_validation_iff_witness :
    (validate test_in (fun _ => (5 : ℚ))).ret = false ∧
    (validate test_in (fun _ => (5 : ℚ))).events =
      [.printElementError 0, .printSawExpected 5 0] := by
  have h := (c3_validation_iff (fun _ => (5 : ℚ))).2 0 (by decide)
    (fun k hk => absurd hk (Nat.not_lt_zero k))
    (by simp [test_in])
  simpa [test_in] using h

/-- C4: a run that reaches the validation step exits with status 0 no matter
what `validate` finds: a mismatch is reported only on standard output and as
the return value of `validate`, never in the exit code. -/
theorem c4_validation_exit_zero (env : Env) (h : firstFailure env = none) :
    (main env).exitCode = 0 := by
  obtain ⟨h1, h2, h3, h4, ⟨path, hres⟩, h6, h7, h8⟩ := firstFailure_none_elim env h
  rw [main_reaches_buffers h1 h2 h3 h4 hres h6 h7 h8]
  exact buffersStage_exitCode env

/-- Witness for C4: a run where every infrastructure step succeeds but the
device returns the constant array `7` (so validation fails at index 0) still
exits with status 0. -/
theorem c4_validation_exit_zero_witness :
    (main ⟨0, 0, 0, "dev", 0, 0, some "path", 0, 0, "", 0, 0, 0, 0, 0, 0, 0,
      fun _ => (7 : ℚ)⟩).exitCode = 0 :=
  c4_validation_exit_zero _ (by decide)

lemma memOutCreated_elim (env : Env) (h : memOutCreated env = true) :
    env.platformErr = 0 ∧ ¬(env.gpuErr ≠ 0 ∧ env.cpuErr ≠ 0) ∧
    env.contextErr = 0 ∧ env.queueErr = 0 ∧
    (∃ path, env.resourcePath = some path) ∧
    env.createProgramErr = 0 ∧ env.buildErr = 0 ∧ env.createKernelErr = 0 ∧
    env.bufInErr = 0 ∧ env.bufOutErr = 0 := by
  simp only [memOutCreated, memInCreated, kernelCreated, programCreated,
    queueCreated, contextCreated, Bool.and_eq_true, Bool.or_eq_true,
    beq_iff_eq, Option.isSome_iff_exists] at h
  tauto

/-- C7: if the kernel-source resource lookup returns no path, the run exits
with status 1 after context and queue creation (both calls appear in the
trace, and both get released) but before any program-creation or build
call. -/
theorem c7_missing_resource (env : Env) (h0 : env.platformErr = 0)
    (hd : ¬(env.gpuErr ≠ 0 ∧ env.cpuErr ≠ 0)) (hc : env.contextErr = 0)
    (hq : env.queueErr = 0) (hr : env.resourcePath = none) :
    (main env).exitCode = 1 ∧
    Event.callCreateContext ∈ (main env).events ∧
    Event.callCreateCommandQueue ∈ (main env).events ∧
    Event.print "Could not find kernel.cl in bundle\n" ∈ (main env).events ∧
    Event.releaseQueue ∈ (main env).events ∧
    Event.releaseContext ∈ (main env).events ∧
    (∀ s, Event.callCreateProgramWithSource s ∉ (main env).events) ∧
    Event.callBuildProgram ∉ (main env).events := by
  rw [main_resource_fail h0 hd hc hq hr]
  refine ⟨rfl, ?_, ?_, ?_, ?_, ?_, ?_, ?_⟩ <;>
    by_cases hg : env.gpuErr ≠ 0 <;>
      simp [devTrace, hg]

/-- Witness for C7: a concrete run whose bundle lookup fails shows the
diagnostic, the releases, exit status 1, and the absence of any
program-creation or build call. -/
theorem c7_missing_resource_witness :
    (main ⟨0, 0, 0, "d", 0, 0, none, 0, 0, "", 0, 0, 0, 0, 0, 0, 0,
        fun _ => 0⟩).exitCode = 1 ∧
    Event.callCreateContext ∈
      (main ⟨0, 0, 0, "d", 0, 0, none, 0, 0, "", 0, 0, 0, 0, 0, 0, 0,
        fun _ => 0⟩).events ∧
    Event.callCreateCommandQueue ∈
      (main ⟨0, 0, 0, "d", 0, 0, none, 0, 0, "", 0, 0, 0, 0, 0, 0, 0,
        fun _ => 0⟩).events ∧
    Event.print "Could not find kernel.cl in bundle\n" ∈
      (main ⟨0, 0, 0, "d", 0, 0, none, 0, 0, "", 0, 0, 0, 0, 0, 0, 0,
        fun _ => 0⟩).events ∧
    Event.releaseQueue ∈
      (main ⟨0, 0, 0, "d", 0, 0, none, 0, 0, "", 0, 0, 0, 0, 0, 0, 0,
        fun _ => 0⟩).events ∧
    Event.releaseContext ∈
      (main ⟨0, 0, 0, "d", 0, 0, none, 0, 0, "", 0, 0, 0, 0, 0, 0, 0,
        fun _ => 0⟩).events ∧
    (∀ s, Event.callCreateProgramWithSource s ∉
      (main ⟨0, 0, 0, "d", 0, 0, none, 0, 0, "", 0, 0, 0, 0, 0, 0, 0,
        fun _ => 0⟩).events) ∧
    Event.callBuildProgram ∉
      (main ⟨0, 0, 0, "d", 0, 0, none, 0, 0, "", 0, 0, 0, 0, 0, 0, 0,
        fun _ => 0⟩).events :=
  c7_missing_resource _ rfl (by simp) rfl rfl rfl

/-- C8: when the build step fails, the run exits with status 1, prints the
build diagnostic with the error code, fetches the build log
(`clGetProgramBuildInfo`) and prints the complete log text. -/
theorem c8_build_log (env : Env) (path : String) (h0 : env.platformErr = 0)
    (hd : ¬(env.gpuErr ≠ 0 ∧ env.cpuErr ≠ 0)) (hc : env.contextErr = 0)
    (hq : env.queueErr = 0) (hr : env.resourcePath = some path)
    (hp : env.createProgramErr = 0) (hb : env.buildErr ≠ 0) :
    (main env).exitCode = 1 ∧
    Event.print (diagBuild env.buildErr) ∈ (main env).events ∧
    Event.callGetProgramBuildInfo ∈ (main env).events ∧
    Event.print ("Build log:\n" ++ env.buildLog ++ "\n") ∈ (main env).events := by
  rw [main_build_fail h0 hd hc hq hr hp hb]
  refine ⟨rfl, ?_, ?_, ?_⟩ <;>
    by_cases hg : env.gpuErr ≠ 0 <;>
      simp [devTrace, hg]

/-- Witness for C8: a run whose build fails with code -11 prints the
diagnostic and the whole log "bad kernel" before exiting 1. -/
theorem c8_build_log_witness :
    (main ⟨0, 0, 0, "d", 0, 0, some "p", 0, -11, "bad kernel", 0, 0, 0, 0, 0,
        0, 0, fun _ => 0⟩).exitCode = 1 ∧
    Event.print (diagBuild (-11)) ∈
      (main ⟨0, 0, 0, "d", 0, 0, some "p", 0, -11, "bad kernel", 0, 0, 0, 0, 0,
        0, 0, fun _ => 0⟩).events ∧
    Event.callGetProgramBuildInfo ∈
      (main ⟨0, 0, 0, "d", 0, 0, some "p", 0, -11, "bad kernel", 0, 0, 0, 0, 0,
        0, 0, fun _ => 0⟩).events ∧
    Event.print ("Build log:\n" ++ "bad kernel" ++ "\n") ∈
      (main ⟨0, 0, 0, "d", 0, 0, some "p", 0, -11, "bad kernel", 0, 0, 0, 0, 0,
        0, 0, fun _ => 0⟩).events :=
  c8_build_log _ "p" rfl (by simp) rfl rfl rfl rfl (by decide)

/-- C2: whenever the bundle lookup resolves `kernel.cl` to a path, the string
handed to `clCreateProgramWithSource` is that path string itself — the
program never opens or reads the file, so the compilation step does not
consume the file's text contents. -/
theorem c2_program_gets_path_string (env : Env) (path : String)
    (h0 : env.platformErr = 0) (hd : ¬(env.gpuErr ≠ 0 ∧ env.cpuErr ≠ 0))
    (hc : env.contextErr = 0) (hq : env.queueErr = 0)
    (hr : env.resourcePath = some path) :
    Event.callCreateProgramWithSource path ∈ (main env).events := by
  by_cases h6 : env.createProgramErr = 0
  case neg =>
    rw [main_program_fail h0 hd hc hq hr h6]
    by_cases hg : env.gpuErr ≠ 0 <;> simp [devTrace, hg]
  by_cases h7 : env.buildErr = 0
  case neg =>
    rw [main_build_fail h0 hd hc hq hr h6 h7]
    by_cases hg : env.gpuErr ≠ 0 <;> simp [devTrace, hg]
  by_cases h8 : env.createKernelErr = 0
  case neg =>
    rw [main_kernel_fail h0 hd hc hq hr h6 h7 h8]
    by_cases hg : env.gpuErr ≠ 0 <;> simp [devTrace, hg]
  rw [main_reaches_buffers h0 hd hc hq hr h6 h7 h8]
  by_cases hg : env.gpuErr ≠ 0 <;> simp [devTrace, hg]

/-- Witness for C2: in a run that resolves `kernel.cl` to
`/bundle/Resources/kernel.cl`, exactly that path string is handed to
`clCreateProgramWithSource`. -/
theorem c2_program_gets_path_string_witness :
    Event.callCreateProgramWithSource "/bundle/Resources/kernel.cl" ∈
      (main ⟨0, 0, 0, "d", 0, 0, some "/bundle/Resources/kernel.cl", 0, 0, "",
        0, 0, 0, 0, 0, 0, 0, fun i => (i : ℚ) * (i : ℚ)⟩).events :=
  c2_program_gets_path_string _ "/bundle/Resources/kernel.cl" rfl (by simp)
    rfl rfl rfl

/-- C9: once both buffers exist, the run proceeds to the kernel-dispatch call
exactly when both argument bindings report success: the combined code
`err | err2` is zero iff each `clSetKernelArg` returned zero. -/
theorem c9_arg_binding_iff (env : Env) (h : memOutCreated env = true) :
    Event.callEnqueueNDRangeKernel NUM_VALUES ∈ (main env).events ↔
      (env.setArg0Err = 0 ∧ env.setArg1Err = 0) := by
  obtain ⟨h1, hd, h3, h4, ⟨path, hres⟩, h6, h7, h8, h9, h10⟩ :=
    memOutCreated_elim env h
  rw [main_reaches_buffers h1 hd h3 h4 hres h6 h7 h8]
  constructor
  · intro hmem
    by_contra hboth
    have hlor : Int.lor env.setArg0Err env.setArg1Err ≠ 0 := fun hz =>
      hboth ((int_lor_eq_zero_iff _ _).mp hz)
    by_cases hg : env.gpuErr ≠ 0 <;>
      simp [buffersStage, devTrace, cleanupEvents, h9, h10, hlor, hg] at hmem
  · rintro ⟨ha, hb⟩
    have hlor : Int.lor env.setArg0Err env.setArg1Err = 0 := by
      rw [ha, hb]; rfl
    by_cases h12 : env.enqueueErr = 0
    case neg =>
      by_cases hg : env.gpuErr ≠ 0 <;>
        simp [buffersStage, devTrace, cleanupEvents, h9, h10, hlor, h12, hg]
    by_cases h13 : env.readErr = 0
    case neg =>
      by_cases hg : env.gpuErr ≠ 0 <;>
        simp [buffersStage, devTrace, cleanupEvents, h9, h10, hlor, h12, h13, hg]
    by_cases hg : env.gpuErr ≠ 0 <;>
      simp [buffersStage, devTrace, cleanupEvents, h9, h10, hlor, h12, h13, hg]

/-- Witness for C9: with argument 0 failing with code -50 and argument 1
succeeding, the dispatch call does not happen. -/
theorem c9_arg_binding_iff_witness :
    Event.callEnqueueNDRangeKernel NUM_VALUES ∈
        (main ⟨0, 0, 0, "d", 0, 0, some "p", 0, 0, "", 0, 0, 0, -50, 0, 0, 0,
          fun _ => 0⟩).events ↔
      ((-50 : Int) = 0 ∧ (0 : Int) = 0) :=
  c9_arg_binding_iff _ (by decide)

lemma main_events_dev_prefix (env : Env) (h0 : env.platformErr = 0) :
    ∃ rest, (main env).events = devTrace env ++ rest := by
  by_cases h2 : env.gpuErr ≠ 0 ∧ env.cpuErr ≠ 0
  · rw [main_device_fail h0 h2.1 h2.2]
    exact ⟨[.print "No OpenCL devices found\n"], by simp [devTrace, h2.1]⟩
  by_cases h3 : env.contextErr = 0
  case neg => exact ⟨_, by rw [main_context_fail h0 h2 h3]⟩
  by_cases h4 : env.queueErr = 0
  case neg => exact ⟨_, by rw [main_queue_fail h0 h2 h3 h4]⟩
  rcases hres : env.resourcePath with _ | path
  · exact ⟨_, by rw [main_resource_fail h0 h2 h3 h4 hres]⟩
  by_cases h6 : env.createProgramErr = 0
  case neg => exact ⟨_, by rw [main_program_fail h0 h2 h3 h4 hres h6]⟩
  by_cases h7 : env.buildErr = 0
  case neg => exact ⟨_, by rw [main_build_fail h0 h2 h3 h4 hres h6 h7]⟩
  by_cases h8 : env.createKernelErr = 0
  case neg => exact ⟨_, by rw [main_kernel_fail h0 h2 h3 h4 hres h6 h7 h8]⟩
  exact ⟨_, by rw [main_reaches_buffers h0 h2 h3 h4 hres h6 h7 h8]⟩

lemma main_no_cpu_probe (env : Env) (hg : env.gpuErr = 0) :
    Event.callGetDeviceIDs .cpu ∉ (main env).events := by
  have hbuf : Event.callGetDeviceIDs .cpu ∉ (buffersStage env).events :=
    buffersStage_not_mem_setup env rfl
  have hd : ¬(env.gpuErr ≠ 0 ∧ env.cpuErr ≠ 0) := by simp [hg]
  by_cases h1 : env.platformErr = 0
  case neg => rw [main_platform_fail h1]; simp
  by_cases h3 : env.contextErr = 0
  case neg => rw [main_context_fail h1 hd h3]; simp [devTrace, hg]
  by_cases h4 : env.queueErr = 0
  case neg => rw [main_queue_fail h1 hd h3 h4]; simp [devTrace, hg]
  rcases hres : env.resourcePath with _ | path
  · rw [main_resource_fail h1 hd h3 h4 hres]; simp [devTrace, hg]
  by_cases h6 : env.createProgramErr = 0
  case neg => rw [main_program_fail h1 hd h3 h4 hres h6]; simp [devTrace, hg]
  by_cases h7 : env.buildErr = 0
  case neg => rw [main_build_fail h1 hd h3 h4 hres h6 h7]; simp [devTrace, hg]
  by_cases h8 : env.createKernelErr = 0
  case neg => rw [main_kernel_fail h1 hd h3 h4 hres h6 h7 h8]; simp [devTrace, hg]
  rw [main_reaches_buffers h1 hd h3 h4 hres h6 h7 h8]
  simp [devTrace, hg, hbuf]

/-- C6: device selection probes for a GPU first; the CPU probe happens only
when the GPU probe fails; and when both fail the run prints the "no device"
diagnostic and exits with status 1 with no context, queue, program or build
call in its trace. -/
theorem c6_device_fallback (env : Env) (h0 : env.platformErr = 0) :
    (env.gpuErr = 0 →
      Event.callGetDeviceIDs .cpu ∉ (main env).events ∧
      (main env).events.take 2 =
        [.callGetPlatformIDs, .callGetDeviceIDs .gpu]) ∧
    (env.gpuErr ≠ 0 →
      (main env).events.take 4 =
        [.callGetPlatformIDs, .callGetDeviceIDs .gpu,
         .print "No GPU found, trying CPU...\n", .callGetDeviceIDs .cpu]) ∧
    (env.gpuErr ≠ 0 → env.cpuErr ≠ 0 →
      (main env).exitCode = 1 ∧
      (main env).events =
        [.callGetPlatformIDs, .callGetDeviceIDs .gpu,
         .print "No GPU found, trying CPU...\n", .callGetDeviceIDs .cpu,
         .print "No OpenCL devices found\n"] ∧
      Event.callCreateContext ∉ (main env).events ∧
      Event.callCreateCommandQueue ∉ (main env).events ∧
      (∀ s, Event.callCreateProgramWithSource s ∉ (main env).events) ∧
      Event.callBuildProgram ∉ (main env).events) := by
  obtain ⟨rest, hrest⟩ := main_events_dev_prefix env h0
  refine ⟨fun hg => ⟨main_no_cpu_probe env hg, ?_⟩, fun hg => ?_,
    fun hg hcpu => ?_⟩
  · rw [hrest]; simp [devTrace, hg]
  · rw [hrest]; simp [devTrace, hg]
  · rw [main_device_fail h0 hg hcpu]
    refine ⟨rfl, rfl, by simp, by simp, fun s => by simp, by simp⟩

/-- Witness for C6: with both probes failing (codes -1), the run exits 1
after printing the fallback notice and the "no device" diagnostic, with no
context, queue, program or build call. -/
theorem c6_device_fallback_witness :
    (main ⟨0, -1, -1, "d", 0, 0, none, 0, 0, "", 0, 0, 0, 0, 0, 0, 0,
        fun _ => 0⟩).exitCode = 1 ∧
    (main ⟨0, -1, -1, "d", 0, 0, none, 0, 0, "", 0, 0, 0, 0, 0, 0, 0,
        fun _ => 0⟩).events =
      [.callGetPlatformIDs, .callGetDeviceIDs .gpu,
       .print "No GPU found, trying CPU...\n", .callGetDeviceIDs .cpu,
       .print "No OpenCL devices found\n"] ∧
    Event.callCreateContext ∉
      (main ⟨0, -1, -1, "d", 0, 0, none, 0, 0, "", 0, 0, 0, 0, 0, 0, 0,
        fun _ => 0⟩).events ∧
    Event.callCreateCommandQueue ∉
      (main ⟨0, -1, -1, "d", 0, 0, none, 0, 0, "", 0, 0, 0, 0, 0, 0, 0,
        fun _ => 0⟩).events ∧
    (∀ s, Event.callCreateProgramWithSource s ∉
      (main ⟨0, -1, -1, "d", 0, 0, none, 0, 0, "", 0, 0, 0, 0, 0, 0, 0,
        fun _ => 0⟩).events) ∧
    Event.callBuildProgram ∉
      (main ⟨0, -1, -1, "d", 0, 0, none, 0, 0, "", 0, 0, 0, 0, 0, 0, 0,
        fun _ => 0⟩).events :=
  (c6_device_fallback _ rfl).2.2 (by decide) (by decide)

/-- C1 (amended): whenever an infrastructure step is the first to fail, its
diagnostic line (naming the step, and carrying the numeric error code for the
API failures) is printed; the failures up to and including kernel creation
exit with status 1, while the failures at buffer creation, argument binding,
kernel dispatch and read-back run through the shared `cleanup:` path and exit
with status 0. -/
theorem c1_failure_diag_and_exit (env : Env) (s : Step)
    (h : firstFailure env = some s) :
    Event.print (stepDiag env s) ∈ (main env).events ∧
    (main env).exitCode = stepExit s := by
  by_cases h1 : env.platformErr = 0
  case neg =>
    simp only [firstFailure, if_pos h1, Option.some.injEq] at h
    subst h
    rw [main_platform_fail h1]
    exact ⟨by simp [stepDiag], rfl⟩
  by_cases h2 : env.gpuErr ≠ 0 ∧ env.cpuErr ≠ 0
  case pos =>
    simp [firstFailure, h1, h2] at h
    subst h
    rw [main_device_fail h1 h2.1 h2.2]
    exact ⟨by simp [stepDiag], rfl⟩
  by_cases h3 : env.contextErr = 0
  case neg =>
    simp [firstFailure, h1, h2, h3] at h
    subst h
    rw [main_context_fail h1 h2 h3]
    exact ⟨by simp [stepDiag], rfl⟩
  by_cases h4 : env.queueErr = 0
  case neg =>
    simp [firstFailure, h1, h2, h3, h4] at h
    subst h
    rw [main_queue_fail h1 h2 h3 h4]
    exact ⟨by simp [stepDiag], rfl⟩
  rcases hres : env.resourcePath with _ | path
  · simp [firstFailure, h1, h2, h3, h4, hres] at h
    subst h
    rw [main_resource_fail h1 h2 h3 h4 hres]
    exact ⟨by simp [stepDiag], rfl⟩
  by_cases h6 : env.createProgramErr = 0
  case neg =>
    simp [firstFailure, h1, h2, h3, h4, hres, h6] at h
    subst h
    rw [main_program_fail h1 h2 h3 h4 hres h6]
    exact ⟨by simp [stepDiag], rfl⟩
  by_cases h7 : env.buildErr = 0
  case neg =>
    simp [firstFailure, h1, h2, h3, h4, hres, h6, h7] at h
    subst h
    rw [main_build_fail h1 h2 h3 h4 hres h6 h7]
    exact ⟨by simp [stepDiag], rfl⟩
  by_cases h8 : env.createKernelErr = 0
  case neg =>
    simp [firstFailure, h1, h2, h3, h4, hres, h6, h7, h8] at h
    subst h
    rw [main_kernel_fail h1 h2 h3 h4 hres h6 h7 h8]
    exact ⟨by simp [stepDiag], rfl⟩
  rw [main_reaches_buffers h1 h2 h3 h4 hres h6 h7 h8]
  by_cases h9 : env.bufInErr = 0
  case neg =>
    simp [firstFailure, h1, h2, h3, h4, hres, h6, h7, h8, h9] at h
    subst h
    exact ⟨by simp [stepDiag, buffersStage, h9], buffersStage_exitCode env⟩
  by_cases h10 : env.bufOutErr = 0
  case neg =>
    simp [firstFailure, h1, h2, h3, h4, hres, h6, h7, h8, h9, h10] at h
    subst h
    exact ⟨by simp [stepDiag, buffersStage, h9, h10], buffersStage_exitCode env⟩
  by_cases h11 : Int.lor env.setArg0Err env.setArg1Err = 0
  case neg =>
    simp [firstFailure, h1, h2, h3, h4, hres, h6, h7, h8, h9, h10, h11] at h
    subst h
    exact ⟨by simp [stepDiag, buffersStage, h9, h10, h11],
      buffersStage_exitCode env⟩
  by_cases h12 : env.enqueueErr = 0
  case neg =>
    simp [firstFailure, h1, h2, h3, h4, hres, h6, h7, h8, h9, h10, h11,
      h12] at h
    subst h
    exact ⟨by simp [stepDiag, buffersStage, h9, h10, h11, h12],
      buffersStage_exitCode env⟩
  by_cases h13 : env.readErr = 0
  case neg =>
    simp [firstFailure, h1, h2, h3, h4, hres, h6, h7, h8, h9, h10, h11, h12,
      h13] at h
    subst h
    exact ⟨by simp [stepDiag, buffersStage, h9, h10, h11, h12, h13],
      buffersStage_exitCode env⟩
  simp [firstFailure, h1, h2, h3, h4, hres, h6, h7, h8, h9, h10, h11, h12,
    h13] at h

/-- Counterexample for C1 as stated: in a run where the input-buffer creation
is the only infrastructure failure (code -61), the diagnostic is printed but
the process exits with status 0, not 1. -/
theorem c1_exit_status_counterexample :
    firstFailure ⟨0, 0, 0, "d", 0, 0, some "p", 0, 0, "", 0, -61, 0, 0, 0, 0,
        0, fun _ => 0⟩ = some Step.bufIn ∧
    Event.print "Error creating input buffer: -61\n" ∈
      (main ⟨0, 0, 0, "d", 0, 0, some "p", 0, 0, "", 0, -61, 0, 0, 0, 0, 0,
        fun _ => 0⟩).events ∧
    (main ⟨0, 0, 0, "d", 0, 0, some "p", 0, 0, "", 0, -61, 0, 0, 0, 0, 0,
        fun _ => 0⟩).exitCode = 0 := by
  refine ⟨by decide, ?_, rfl⟩
  rw [main_reaches_buffers rfl (by simp) rfl rfl rfl rfl rfl rfl]
  simp [buffersStage, devTrace]
  exact Or.inl (by decide)

/-- Witness for C1 (amended): a platform failure with code -32 prints the
platform diagnostic and exits with status 1. -/
theorem c1_failure_diag_and_exit_witness :
    Event.print (stepDiag ⟨-32, 0, 0, "d", 0, 0, some "p", 0, 0, "", 0, 0, 0,
        0, 0, 0, 0, fun _ => 0⟩ Step.platform) ∈
      (main ⟨-32, 0, 0, "d", 0, 0, some "p", 0, 0, "", 0, 0, 0, 0, 0, 0, 0,
        fun _ => 0⟩).events ∧
    (main ⟨-32, 0, 0, "d", 0, 0, some "p", 0, 0, "", 0, 0, 0, 0, 0, 0, 0,
        fun _ => 0⟩).exitCode = stepExit Step.platform :=
  c1_failure_diag_and_exit _ Step.platform (by decide)

lemma devTrace_count_releases (env : Env) :
    ((devTrace env).count Event.releaseContext = 0) ∧
    ((devTrace env).count Event.releaseQueue = 0) ∧
    ((devTrace env).count Event.releaseProgram = 0) ∧
    ((devTrace env).count Event.releaseKernel = 0) ∧
    ((devTrace env).count Event.releaseMemIn = 0) ∧
    ((devTrace env).count Event.releaseMemOut = 0) := by
  unfold devTrace
  split_ifs <;> refine ⟨?_, ?_, ?_, ?_, ?_, ?_⟩ <;> rfl

lemma devTrace_filter_release (env : Env) :
    (devTrace env).filter Event.isRelease = [] := by
  unfold devTrace
  split_ifs <;> rfl

lemma buffersStage_release (env : Env) :
    ((buffersStage env).events.count Event.releaseContext = 1) ∧
    ((buffersStage env).events.count Event.releaseQueue = 1) ∧
    ((buffersStage env).events.count Event.releaseProgram = 1) ∧
    ((buffersStage env).events.count Event.releaseKernel = 1) ∧
    ((buffersStage env).events.count Event.releaseMemIn =
      if env.bufInErr = 0 then 1 else 0) ∧
    ((buffersStage env).events.count Event.releaseMemOut =
      if env.bufInErr = 0 ∧ env.bufOutErr = 0 then 1 else 0) ∧
    (env.bufInErr = 0 → env.bufOutErr = 0 →
      (buffersStage env).events.filter Event.isRelease =
        [.releaseMemIn, .releaseMemOut, .releaseKernel, .releaseProgram,
         .releaseQueue, .releaseContext]) := by
  by_cases h9 : env.bufInErr = 0
  case neg =>
    simp [buffersStage, h9, cleanupEvents, List.count_cons, Event.isRelease]
  by_cases h10 : env.bufOutErr = 0
  case neg =>
    simp [buffersStage, h9, h10, cleanupEvents, List.count_cons,
      Event.isRelease]
  by_cases h11 : Int.lor env.setArg0Err env.setArg1Err = 0
  case neg =>
    simp [buffersStage, h9, h10, h11, cleanupEvents, List.count_cons,
      Event.isRelease]
  by_cases h12 : env.enqueueErr = 0
  case neg =>
    simp [buffersStage, h9, h10, h11, h12, cleanupEvents, List.count_cons,
      Event.isRelease]
  by_cases h13 : env.readErr = 0
  case neg =>
    simp [buffersStage, h9, h10, h11, h12, h13, cleanupEvents,
      List.count_cons, Event.isRelease]
  rcases validateAux_events_shape test_in env.readback NUM_VALUES 0 with
    hv | ⟨j, a, b, hv⟩ <;>
    by_cases hret : (validateAux test_in env.readback 0 NUM_VALUES).ret = true <;>
      simp [buffersStage, validate, h9, h10, h11, h12, h13, hv, hret,
        cleanupEvents, List.count_cons, Event.isRelease]

/-- C5: on every exit path, each OpenCL resource that was successfully
created (context, queue, program, kernel, input buffer, output buffer) is
released exactly once, a resource that was not created is never released,
and on the paths where all six exist the releases happen in the order
buffers, kernel, program, queue, context. -/
theorem c5_release_discipline (env : Env) :
    ((main env).events.count Event.releaseContext =
      if contextCreated env then 1 else 0) ∧
    ((main env).events.count Event.releaseQueue =
      if queueCreated env then 1 else 0) ∧
    ((main env).events.count Event.releaseProgram =
      if programCreated env then 1 else 0) ∧
    ((main env).events.count Event.releaseKernel =
      if kernelCreated env then 1 else 0) ∧
    ((main env).events.count Event.releaseMemIn =
      if memInCreated env then 1 else 0) ∧
    ((main env).events.count Event.releaseMemOut =
      if memOutCreated env then 1 else 0) ∧
    (memOutCreated env = true →
      (main env).events.filter Event.isRelease =
        [.releaseMemIn, .releaseMemOut, .releaseKernel, .releaseProgram,
         .releaseQueue, .releaseContext]) := by
  obtain ⟨d1, d2, d3, d4, d5, d6⟩ := devTrace_count_releases env
  have df := devTrace_filter_release env
  by_cases h1 : env.platformErr = 0
  case neg =>
    rw [main_platform_fail h1]
    simp [contextCreated, queueCreated, programCreated, kernelCreated,
      memInCreated, memOutCreated, h1, List.count_cons, Event.isRelease]
  by_cases h2 : env.gpuErr ≠ 0 ∧ env.cpuErr ≠ 0
  case pos =>
    rw [main_device_fail h1 h2.1 h2.2]
    simp [contextCreated, queueCreated, programCreated, kernelCreated,
      memInCreated, memOutCreated, h1, h2.1, h2.2, List.count_cons,
      Event.isRelease]
  have hdev : (env.gpuErr == 0 || env.cpuErr == 0) = true := by
    by_cases hgg : env.gpuErr = 0
    · simp [hgg]
    · have hcc : env.cpuErr = 0 := by tauto
      simp [hcc]
  by_cases h3 : env.contextErr = 0
  case neg =>
    rw [main_context_fail h1 h2 h3]
    simp [contextCreated, queueCreated, programCreated, kernelCreated,
      memInCreated, memOutCreated, h1, hdev, h3, List.count_append, d1, d2,
      d3, d4, d5, d6, List.count_cons, Event.isRelease]
  by_cases h4 : env.queueErr = 0
  case neg =>
    rw [main_queue_fail h1 h2 h3 h4]
    simp [contextCreated, queueCreated, programCreated, kernelCreated,
      memInCreated, memOutCreated, h1, hdev, h3, h4, List.count_append, d1,
      d2, d3, d4, d5, d6, List.count_cons, Event.isRelease]
  rcases hres : env.resourcePath with _ | path
  · rw [main_resource_fail h1 h2 h3 h4 hres]
    simp [contextCreated, queueCreated, programCreated, kernelCreated,
      memInCreated, memOutCreated, h1, hdev, h3, h4, hres, List.count_append,
      d1, d2, d3, d4, d5, d6, List.count_cons, Event.isRelease]
  by_cases h6 : env.createProgramErr = 0
  case neg =>
    rw [main_program_fail h1 h2 h3 h4 hres h6]
    simp [contextCreated, queueCreated, programCreated, kernelCreated,
      memInCreated, memOutCreated, h1, hdev, h3, h4, hres, h6,
      List.count_append, d1, d2, d3, d4, d5, d6, List.count_cons,
      Event.isRelease]
  by_cases h7 : env.buildErr = 0
  case neg =>
    rw [main_build_fail h1 h2 h3 h4 hres h6 h7]
    simp [contextCreated, queueCreated, programCreated, kernelCreated,
      memInCreated, memOutCreated, h1, hdev, h3, h4, hres, h6, h7,
      List.count_append, d1, d2, d3, d4, d5, d6, List.count_cons,
      Event.isRelease]
  by_cases h8 : env.createKernelErr = 0
  case neg =>
    rw [main_kernel_fail h1 h2 h3 h4 hres h6 h7 h8]
    simp [contextCreated, queueCreated, programCreated, kernelCreated,
      memInCreated, memOutCreated, h1, hdev, h3, h4, hres, h6, h7, h8,
      List.count_append, d1, d2, d3, d4, d5, d6, List.count_cons,
      Event.isRelease]
  rw [main_reaches_buffers h1 h2 h3 h4 hres h6 h7 h8]
  obtain ⟨bC, bQ, bP, bK, bI, bO, bF⟩ := buffersStage_release env
  refine ⟨?_, ?_, ?_, ?_, ?_, ?_, ?_⟩
  · simp [contextCreated, h1, hdev, h3, List.count_append, d1, bC,
      List.count_cons, Event.isRelease]
  · simp [queueCreated, contextCreated, h1, hdev, h3, h4, List.count_append,
      d2, bQ, List.count_cons, Event.isRelease]
  · simp [programCreated, queueCreated, contextCreated, h1, hdev, h3, h4,
      hres, h6, List.count_append, d3, bP, List.count_cons, Event.isRelease]
  · simp [kernelCreated, programCreated, queueCreated, contextCreated, h1,
      hdev, h3, h4, hres, h6, h7, h8, List.count_append, d4, bK,
      List.count_cons, Event.isRelease]
  · simp [memInCreated, kernelCreated, programCreated, queueCreated,
      contextCreated, h1, hdev, h3, h4, hres, h6, h7, h8, List.count_append,
      d5, bI, List.count_cons, Event.isRelease]
  · simp [memOutCreated, memInCreated, kernelCreated, programCreated,
      queueCreated, contextCreated, h1, hdev, h3, h4, hres, h6, h7, h8,
      List.count_append, d6, bO, List.count_cons, Event.isRelease]
  · intro hmo
    obtain ⟨-, -, -, -, -, -, -, -, h9, h10⟩ := memOutCreated_elim env hmo
    simp [List.filter_append, df, bF h9 h10, Event.isRelease]

/-- Witness for C5: in an all-success run, the release subsequence of the
trace is exactly buffers, kernel, program, queue, context. -/
theorem c5_release_discipline_witness :
    memOutCreated ⟨0, 0, 0, "d", 0, 0, some "p", 0, 0, "", 0, 0, 0, 0, 0, 0,
        0, fun i => (i : ℚ) * (i : ℚ)⟩ = true ∧
    (main ⟨0, 0, 0, "d", 0, 0, some "p", 0, 0, "", 0, 0, 0, 0, 0, 0, 0,
        fun i => (i : ℚ) * (i : ℚ)⟩).events.filter Event.isRelease =
      [.releaseMemIn, .releaseMemOut, .releaseKernel, .releaseProgram,
       .releaseQueue, .releaseContext] :=
  ⟨by decide,
   (c5_release_discipline _).2.2.2.2.2.2 (by decide)⟩

end HelloOpenCL
